import Mathlib

/-!
Verification of the UnixFS-on-IPLD exporter (py-unix-fs-exporter).

Shallow embedding of the repository sources:
  py_unix_fs_exporter/content.py        (file DAG walker, HAMT enumeration)
  py_unix_fs_exporter/resolvers.py      (codec dispatch, per-codec resolvers)
  py_unix_fs_exporter/exporter.py       (path parsing, walk loop)
  py_unix_fs_exporter/ipfs_unix_fs/unix_fs.py   (UnixFS marshal/unmarshal)
  py_unix_fs_exporter/ipfs_dag_pb/dag_pb.py     (PBNode / PBLink decoding)

Bytes are modelled as lists of naturals.  Python generators are modelled as a
pair of the list of yielded items and an optional terminal error (a generator
yields its items in order and may raise one exception, which ends the stream).
Python exceptions are modelled by the PyErr inductive below.

External collaborators (the multiformats CID adapter, the protobuf generated
modules, the dag_cbor decoder) are not in the sources; they are modelled from
the specification where noted.
-/

/-- Byte strings, modelled as lists of naturals. -/
abbrev Bytes := List Nat

/-- Python exceptions raised by the embedded code.  Each constructor names the
Python exception (and, for ContentExtractionException, which message) it
stands for.  `unsupportedCodecResolve` is the dedicated UnsupportedCodec
resolve error the specification asks for; the source never raises it. -/
inductive PyErr
  /-- builtin KeyError: a dict lookup with a missing key. -/
  | keyError
  /-- IPFSUnixFSResolveException (path-not-found style resolve errors). -/
  | resolveException
  /-- builtin AssertionError from a failed `assert` statement. -/
  | assertionError
  /-- builtin TypeError (e.g. calling a function with a missing argument). -/
  | typeError
  /-- builtin AttributeError: reading an attribute that does not exist, e.g.
  `link.cid` on the slotted attrs class PBLink whose field is named `hash`,
  or `PBNode.decode`, which is not defined. -/
  | attributeError
  /-- a decode failure from the protobuf / CID / cbor decoding layer. -/
  | decodeError
  /-- ContentExtractionException: inconsistent block sizes and DAG links. -/
  | inconsistentBlockSizes
  /-- ContentExtractionException: unsupported codec inside a file DAG. -/
  | unsupportedCodecContent
  /-- ContentExtractionException: expected to read N but read M. -/
  | sizeMismatch
  /-- ContentExtractionException: no fanout for hamt directory. -/
  | noFanout
  /-- a dedicated UnsupportedCodec resolve error (specification section 7);
  present in the model so the claim about it can be stated. -/
  | unsupportedCodecResolve
  /-- artifact of the embedding: recursion fuel ran out. -/
  | fuelOut
deriving DecidableEq, Repr

/-- Content identifier.  Modelled from the spec: the multiformats adapter is
an external collaborator exposing the codec and the digest; two CIDs are
equal iff their canonical encodings are equal.  The `codec` field here is the
INTEGER codec code (what the Python object exposes as `cid.codec.code`); the
fact that the Python attribute `cid.codec` is the Multicodec object rather
than this integer matters only for the dict lookup in `resolve` and is
modelled there by the CRKey key space. -/
structure CID where
  codec : Nat
  digest : Nat
deriving DecidableEq, Repr

def codeIdentity : Nat := 0x00
def codeRaw : Nat := 0x55
def codeDagPB : Nat := 0x70
def codeDagCbor : Nat := 0x71

/-- Modelled from the spec: the canonical raw byte encoding of a CID
(`bytes(cid)` in the source), injective by construction. -/
def cidBytes (c : CID) : Bytes := [c.codec, c.digest]

/-- Modelled from the spec: `CID.decode` applied to raw bytes, the partial
inverse of `cidBytes`. -/
def cidDecodeBytes : Bytes → Option CID
  | [a, d] => some ⟨a, d⟩
  | _ => none

/-- Modelled from the spec: the multibase string rendering of a CID
(`cid.encode()` in the source).  The multiformats library is external; the
model is an injective rendering with a matching parser. -/
def cidEncode (c : CID) : String :=
  String.mk (List.replicate c.codec 'a' ++ '#' :: List.replicate c.digest 'b')

/-- Count the leading occurrences of a character, returning the count and the
remainder of the list. -/
def countLeading (c : Char) : List Char → Nat × List Char
  | [] => (0, [])
  | x :: xs =>
    if x = c then
      let r := countLeading c xs
      (r.1 + 1, r.2)
    else (0, x :: xs)

/-- Modelled from the spec: `CID.decode` applied to a string, the partial
inverse of `cidEncode`. -/
def cidDecodeStr (s : String) : Option CID :=
  let r := countLeading 'a' s.data
  match r.2 with
  | '#' :: rest =>
    let r2 := countLeading 'b' rest
    if r2.2 = [] then some ⟨r.1, r2.1⟩ else none
  | _ => none

/-- Keys of the block provider mapping.  The Python mapping is keyed by
arbitrary Python objects; the source uses both raw CID bytes and the multibase
string of a CID as keys. -/
inductive BSKey
  | bytes (b : Bytes)
  | str (s : String)
deriving DecidableEq, Repr

/-- The block provider (`block_from_encoded_cid` in the source): a partial
mapping from keys to block bytes; a missing key raises KeyError. -/
abbrev Store := BSKey → Option Bytes

/-- dag_pb.PBLink: an attrs class with `slots=True` and exactly the fields
`name`, `t_size` and `hash`.  content.py nevertheless reads `link.cid`
(lines 25, 26, 36, 39, 59, 70, 73); on a slotted attrs class that access
raises AttributeError, which the content walkers below model. -/
structure PBLink where
  name : Option String
  t_size : Option Nat
  hash : CID
deriving DecidableEq, Repr

/-- dag_pb.PBNode.  `data` is the raw protobuf payload (default empty). -/
structure PBNode where
  data : Bytes
  links : List PBLink
deriving DecidableEq, Repr

/-! Wire codec for PBNode.  Modelled from the spec: the generated protobuf
module dag_pb_pb2 is not in the sources; the model is an injective tagged
encoding with a matching parser (decode_pbnode / PBNode.decode). -/

/-- Encode a length-prefixed chunk of bytes. -/
def encBytesB (b : Bytes) : Bytes := b.length :: b

/-- Encode a string as a length-prefixed chunk of character codes. -/
def encStr (s : String) : Bytes := encBytesB (s.data.map Char.toNat)

/-- Encode an optional value given an encoder for the value. -/
def encOpt (enc : α → Bytes) : Option α → Bytes
  | none => [0]
  | some a => 1 :: enc a

/-- Encode a CID on the dag-pb wire. -/
def encCID (c : CID) : Bytes := [c.codec, c.digest]

/-- Encode a PBLink on the dag-pb wire. -/
def encLink (l : PBLink) : Bytes :=
  encOpt encStr l.name ++ encOpt (fun n => [n]) l.t_size ++ encCID l.hash

/-- Encode a PBNode on the dag-pb wire. -/
def encodePBNode (n : PBNode) : Bytes :=
  encBytesB n.data ++ n.links.length :: (n.links.map encLink).flatten

/-- Read one natural from the head of the input. -/
def rdNat : Bytes → Option (Nat × Bytes)
  | [] => none
  | n :: r => some (n, r)

/-- Read a length-prefixed chunk. -/
def rdChunk : Bytes → Option (Bytes × Bytes)
  | [] => none
  | n :: r => if n ≤ r.length then some (r.take n, r.drop n) else none

/-- Read a length-prefixed string. -/
def rdStr (b : Bytes) : Option (String × Bytes) :=
  (rdChunk b).map (fun p => (String.mk (p.1.map Char.ofNat), p.2))

/-- Read an optional value given a reader for the value. -/
def rdOpt (p : Bytes → Option (α × Bytes)) : Bytes → Option (Option α × Bytes)
  | 0 :: r => some (none, r)
  | 1 :: r => (p r).map (fun q => (some q.1, q.2))
  | _ => none

/-- Read a CID from the dag-pb wire. -/
def rdCID : Bytes → Option (CID × Bytes)
  | a :: d :: r => some (⟨a, d⟩, r)
  | _ => none

/-- Read a PBLink from the dag-pb wire. -/
def rdLink (b : Bytes) : Option (PBLink × Bytes) :=
  match rdOpt rdStr b with
  | none => none
  | some (nm, r1) =>
    match rdOpt rdNat r1 with
    | none => none
    | some (ts, r2) =>
      match rdCID r2 with
      | none => none
      | some (c, r3) => some (⟨nm, ts, c⟩, r3)

/-- Read a given number of PBLinks from the dag-pb wire. -/
def rdLinks : Nat → Bytes → Option (List PBLink × Bytes)
  | 0, r => some ([], r)
  | k + 1, r =>
    match rdLink r with
    | none => none
    | some (l, r1) =>
      match rdLinks k r1 with
      | none => none
      | some (ls, r2) => some (l :: ls, r2)

/-- decode_pbnode / PBNode.decode: decode a block into a PBNode, or fail
(protobuf DecodeError). -/
def decodePBNode (b : Bytes) : Option PBNode :=
  match rdChunk b with
  | none => none
  | some (d, r1) =>
    match rdNat r1 with
    | none => none
    | some (k, r2) =>
      match rdLinks k r2 with
      | none => none
      | some (ls, r3) => if r3 = [] then some ⟨d, ls⟩ else none

/-! UnixFS data model (ipfs_unix_fs/unix_fs.py). -/

/-- unix_fs.FSType. -/
inductive FSType
  | RAW
  | DIRECTORY
  | FILE
  | METADATA
  | SYMLINK
  | HAMTSHARD
deriving DecidableEq, Repr

/-- FSType(value): the enum constructor, raising ValueError outside 0..5. -/
def FSType.ofNat? : Nat → Option FSType
  | 0 => some .RAW
  | 1 => some .DIRECTORY
  | 2 => some .FILE
  | 3 => some .METADATA
  | 4 => some .SYMLINK
  | 5 => some .HAMTSHARD
  | _ => none

/-- unix_fs.MTime. -/
structure MTime where
  seconds : Nat
  nano_seconds : Option Nat
deriving DecidableEq, Repr

/-- unix_fs.UnixFS (the constructor fields). -/
structure UnixFS where
  fs_type : FSType
  data : Option Bytes
  block_sizes : List Nat
  hash_type : Option Nat
  fanout : Nat
  m_time : Option MTime
  mode : Nat
deriving DecidableEq, Repr

/-- UnixFS.is_dir: the type is DIRECTORY or HAMTSHARD. -/
def UnixFS.is_dir (u : UnixFS) : Bool :=
  u.fs_type = FSType.DIRECTORY ∨ u.fs_type = FSType.HAMTSHARD

/-- UnixFS.file_size: 0 for directories, otherwise the length of `data`
(empty when absent) plus the sum of the block sizes. -/
def UnixFS.file_size (u : UnixFS) : Nat :=
  if u.is_dir then 0 else (u.data.getD []).length + u.block_sizes.sum

/-- Modelled from the spec: the generated protobuf message unixfs_pb2.Data
(the module is not in the sources).  Fields as in specification section 6;
every field has a default value. -/
structure PBData where
  type_ : Nat
  data : Bytes
  blocksizes : List Nat
  hashType : Nat
  fanout : Nat
  mtime : Option (Nat × Nat)
  mode : Nat
deriving DecidableEq, Repr

/-- Modelled from the spec: a freshly constructed pb2.Data() message, all
fields at their defaults. -/
def freshPBData : PBData := ⟨0, [], [], 0, 0, none, 0⟩

/-- Encode an optional pair of naturals. -/
def encOptPair : Option (Nat × Nat) → Bytes
  | none => [0]
  | some (a, b) => [1, a, b]

/-- Modelled from the spec: pb2.Data.SerializeToString, an injective encoding
of the message. -/
def serializePBData (m : PBData) : Bytes :=
  m.type_ :: (encBytesB m.data ++ encBytesB m.blocksizes ++
    [m.hashType, m.fanout] ++ encOptPair m.mtime ++ [m.mode])

/-- Read an optional pair of naturals. -/
def rdOptPair : Bytes → Option (Option (Nat × Nat) × Bytes)
  | 0 :: r => some (none, r)
  | 1 :: a :: b :: r => some (some (a, b), r)
  | _ => none

/-- Modelled from the spec: pb2.Data().ParseFromString, the partial inverse of
`serializePBData`. -/
def parsePBData (b : Bytes) : Option PBData :=
  match b with
  | [] => none
  | t :: r =>
    match rdChunk r with
    | none => none
    | some (d, r1) =>
      match rdChunk r1 with
      | none => none
      | some (bs, r2) =>
        match r2 with
        | h :: f :: r3 =>
          match rdOptPair r3 with
          | none => none
          | some (mt, r4) =>
            match r4 with
            | [mo] => some ⟨t, d, bs, h, f, mt, mo⟩
            | _ => none
        | _ => none

/-- UnixFS.unmarshal: parse the protobuf message and build a UnixFS value from
its fields (FSType(message.Type) raises ValueError outside 0..5, modelled as
a parse failure). -/
def UnixFS.unmarshal (b : Bytes) : Option UnixFS :=
  match parsePBData b with
  | none => none
  | some m =>
    match FSType.ofNat? m.type_ with
    | none => none
    | some t =>
      some ⟨t, some m.data, m.blocksizes, some m.hashType, m.fanout,
        m.mtime.map (fun p => ⟨p.1, p.2⟩), m.mode⟩

/-- UnixFS.marshal: the source builds a fresh pb2.Data() message and
serializes it without copying any field of `self`
(`message = pb2.Data(); return message.SerializeToString()`). -/
def UnixFS.marshal (_u : UnixFS) : Bytes :=
  serializePBData freshPBData

/-! content.py: the file DAG walker. -/

/-- The inner/outer loop of content._walk_dag.  The Python code keeps a LIFO
`queue` of pending link sequences and an inner `for` loop over the current
sequence; the first statement of that loop body is
`block = block_from_encoded_cid[bytes(link.cid)]` (content.py:25), and
`link.cid` raises AttributeError — PBLink is a slotted attrs class whose CID
field is named `hash` — before the block fetch, the codec test, the
(nonexistent) `PBNode.decode` call (content.py:27) and the child block-size
check are reached.  So the loop terminates normally only when every popped
sequence is empty, and raises AttributeError at the first link otherwise.
Fuel bounds the recursion of the unbounded Python loop; the result is the
list of yielded chunks and the optional exception ending the generator.
(The `store` parameter is retained from the source signature; no fetch is
ever reached.) -/
def walk_links (store : Store) : Nat → List PBLink → List (List PBLink) →
    List Bytes × Option PyErr
  | 0, _, _ => ([], some .fuelOut)
  | _ + 1, [], [] => ([], none)
  | fuel + 1, [], ls :: stack => walk_links store fuel ls stack
  | _ + 1, _ :: _, _ => ([], some .attributeError)

/-- content._walk_dag: unmarshal the root's UnixFS data, validate the
block-size / link-count law, yield the root's data, then walk the links.
Because of the AttributeError in walk_links, a root with at least one link
yields only its UnixFS data before the generator raises; only a link-free
root streams to exhaustion. -/
def walk_dag (store : Store) (fuel : Nat) (node : PBNode) :
    List Bytes × Option PyErr :=
  match UnixFS.unmarshal node.data with
  | none => ([], some .decodeError)
  | some file =>
    if file.block_sizes.length ≠ node.links.length then
      ([], some .inconsistentBlockSizes)
    else
      let r := walk_links store fuel node.links []
      (file.data.getD [] :: r.1, r.2)

/-- content.file_content: drive the DAG walk, sum the chunk lengths, and at
exhaustion raise ContentExtractionException when the total differs from
`unix_fs.file_size()` computed up front. -/
def file_content (store : Store) (fuel : Nat) (node : PBNode)
    (unix_fs : UnixFS) : List Bytes × Option PyErr :=
  if unix_fs.fs_type ≠ FSType.FILE then ([], some .assertionError)
  else
    let expected := unix_fs.file_size
    let r := walk_dag store fuel node
    match r.2 with
    | some e => (r.1, some e)
    | none =>
      if (r.1.map List.length).sum ≠ expected then (r.1, some .sizeMismatch)
      else (r.1, none)

/-! resolvers.py: exportables and resolve results. -/

/-- resolvers.ExportableType. -/
inductive ExportableType
  | FILE
  | DIRECTORY
  | OBJECT
  | RAW
  | IDENTITY
deriving DecidableEq, Repr

/-- resolvers.Exportable: the stream-independent header of an exportable
(name, path, cid, depth, size) plus the UnixFS node when there is one.  The
lazy `content` stream of an exportable is modelled separately by the content
functions (walk_dag, file_content, list_hamt_directory), which return the
yielded items and the optional terminating exception. -/
structure Exportable where
  etype : ExportableType
  name : String
  path : String
  cid : CID
  depth : Nat
  size : Nat
  unix_fs : Option UnixFS
deriving DecidableEq, Repr

/-- resolvers.NextResult. -/
structure NextResult where
  cid : CID
  name : String
  path : String
  to_resolve : List String
deriving DecidableEq, Repr

/-- resolvers.ResolveResult. -/
structure ResolveResult where
  entry : Exportable
  next : Option NextResult
deriving DecidableEq, Repr

/-- The Resolver callable type of resolvers.py:
(cid, name, path, to_resolve, depth, block_from_encoded_cid). -/
abbrev ResolverFn :=
  CID → String → String → List String → Nat → Store → Except PyErr ResolveResult

/-- The type of resolvers._find_shard_cid.  Its body depends on the external
mmh3 and hamt_sharding libraries; no claim touches its internals, so the
dag-pb resolver is parameterized over it and theorems quantify over this
parameter. -/
abbrev FindShard := PBNode → String → Store → Except PyErr (Option CID)

instance : DecidableEq (Except PyErr ResolveResult) := fun a b =>
  match a, b with
  | .error e, .error f =>
    if h : e = f then .isTrue (congrArg Except.error h)
    else .isFalse (fun hh => h (Except.error.inj hh))
  | .ok x, .ok y =>
    if h : x = y then .isTrue (congrArg Except.ok h)
    else .isFalse (fun hh => h (Except.ok.inj hh))
  | .error _, .ok _ => .isFalse (fun hh => Except.noConfusion hh)
  | .ok _, .error _ => .isFalse (fun hh => Except.noConfusion hh)

/-! content.py: HAMT sharded directory enumeration. -/

/-- pad_length in content._list_hamt_directory:
`len(hex(fanout - 1)[2:])`, the number of hex digits of fanout - 1. -/
def hexLen (n : Nat) : Nat := (Nat.toDigits 16 n).length

/-- The per-link loop of content._list_hamt_directory.  After stripping the
pad-length prefix from `link.name`, BOTH branches of the loop body evaluate
`link.cid` — the entry branch as the first argument of the resolver call
(content.py:70) and the sub-shard branch inside
`block_from_encoded_cid[bytes(link.cid)]` (content.py:73) — and the slotted
attrs class PBLink has no `cid` attribute, so the generator raises
AttributeError at the first link before yielding any entry; the
missing-`resolver`-argument TypeError of the recursive call at content.py:75
sits behind it and is unreachable.  (The resolver and store parameters are
retained from the source signature; neither is ever applied.) -/
def hamt_links (resolver : ResolverFn) (store : Store) (padLen : Nat)
    (path : String) (depth : Nat) : List PBLink → List Exportable × Option PyErr
  | [] => ([], none)
  | _ :: _ => ([], some .attributeError)

/-- content._list_hamt_directory: unmarshal the shard node, reject a zero
fanout, compute the prefix length and walk the links. -/
def list_hamt_directory (resolver : ResolverFn) (store : Store) (node : PBNode)
    (path : String) (depth : Nat) : List Exportable × Option PyErr :=
  match UnixFS.unmarshal node.data with
  | none => ([], some .decodeError)
  | some u =>
    if u.fanout = 0 then ([], some .noFanout)
    else hamt_links resolver store (hexLen (u.fanout - 1)) path depth node.links

/-- content.hamt_sharded_directory_content: assert the type and delegate to
_list_hamt_directory (the top-level call passes the resolver). -/
def hamt_sharded_directory_content (resolver : ResolverFn) (store : Store)
    (node : PBNode) (unix_fs : UnixFS) (path : String) (depth : Nat) :
    List Exportable × Option PyErr :=
  if unix_fs.fs_type ≠ FSType.HAMTSHARD then ([], some .assertionError)
  else list_hamt_directory resolver store node path depth

/-! resolvers.py: the per-codec resolvers. -/

/-- resolvers.resolve_raw: leftover segments are a path-not-found error;
otherwise fetch the block (keyed by `cid.encode()`) and return a RAW
exportable whose size is the block length. -/
def resolve_raw (cid : CID) (name path : String) (to_resolve : List String)
    (depth : Nat) (store : Store) : Except PyErr ResolveResult :=
  if to_resolve.length > 0 then .error .resolveException
  else
    match store (.str (cidEncode cid)) with
    | none => .error .keyError
    | some block =>
      .ok ⟨⟨.RAW, name, path, cid, depth, block.length, none⟩, none⟩

/-- resolvers.resolve_identity: like resolve_raw with an IDENTITY tag. -/
def resolve_identity (cid : CID) (name path : String) (to_resolve : List String)
    (depth : Nat) (store : Store) : Except PyErr ResolveResult :=
  if to_resolve.length > 0 then .error .resolveException
  else
    match store (.str (cidEncode cid)) with
    | none => .error .keyError
    | some block =>
      .ok ⟨⟨.IDENTITY, name, path, cid, depth, block.length, none⟩, none⟩

/-- Values decoded from a dag-cbor block.  Modelled from the spec: the
dag_cbor library is external; maps, CID links and other scalars are the
shapes the resolver distinguishes. -/
inductive CborValue
  | cid (c : CID)
  | map (entries : List (String × CborValue))
  | other (n : Nat)

/-- Association-list lookup for cbor maps (`sub_obj[prop]`). -/
def cborLookup : List (String × CborValue) → String → Option CborValue
  | [], _ => none
  | (k, v) :: rest, key => if k = key then some v else cborLookup rest key

/-- Modelled from the spec: `CID.decode(sub_obj[prop])` on a decoded dag-cbor
value.  The model generously returns the CID when the value is one and `none`
otherwise (the spec's intended test of whether the value is a CID). -/
def tryCID : CborValue → Option CID
  | .cid c => some c
  | _ => none

/-- Parser for the modelled dag-cbor wire format; parses either one value
(.inl input) or a count of map entries (.inr (count, input)).  A single
function is used so the recursion is structural on the fuel. -/
def rdCborAux : Nat → (Bytes ⊕ (Nat × Bytes)) →
    Option ((CborValue ⊕ List (String × CborValue)) × Bytes)
  | 0, _ => none
  | fuel + 1, .inl b =>
    match b with
    | 0 :: n :: r => some (.inl (.other n), r)
    | 1 :: a :: d :: r => some (.inl (.cid ⟨a, d⟩), r)
    | 2 :: k :: r =>
      match rdCborAux fuel (.inr (k, r)) with
      | some (.inr es, r2) => some (.inl (.map es), r2)
      | _ => none
    | _ => none
  | _ + 1, .inr (0, r) => some (.inr [], r)
  | fuel + 1, .inr (k + 1, r) =>
    match rdStr r with
    | none => none
    | some (key, r1) =>
      match rdCborAux fuel (.inl r1) with
      | some (.inl v, r2) =>
        match rdCborAux fuel (.inr (k, r2)) with
        | some (.inr es, r3) => some (.inr ((key, v) :: es), r3)
        | _ => none
      | _ => none

/-- Modelled from the spec: dag_cbor.decode, a failure-aware decoder of a
block into a CborValue. -/
def dagCborDecode (b : Bytes) : Option CborValue :=
  match rdCborAux (2 * b.length + 4) (.inl b) with
  | some (.inl v, []) => some v
  | _ => none

/-- The `while len(to_resolve) > 0` loop of resolvers.resolve_dag_cbor.  The
loop state is (to_resolve, sub_obj, sub_path).  As in the source, the
recursive step after descending into `sub_obj[prop]` passes `to_resolve`
UNCHANGED (the source never drops the consumed segment inside the loop; only
the returned NextResult carries `to_resolve[1:]`).  Membership testing on a
non-map value raises TypeError as `prop in sub_obj` would. -/
def cborResolveLoop (cid : CID) (block : Bytes) (name path : String)
    (depth : Nat) : Nat → List String → CborValue → String →
    Except PyErr ResolveResult
  | 0, _, _, _ => .error .fuelOut
  | _ + 1, [], _, _ =>
    .ok ⟨⟨.OBJECT, name, path, cid, depth, block.length, none⟩, none⟩
  | fuel + 1, prop :: rest, sub_obj, sub_path =>
    match sub_obj with
    | .map es =>
      match cborLookup es prop with
      | none => .error .resolveException
      | some v =>
        let sub_path2 := sub_path ++ "/" ++ prop
        match tryCID v with
        | some c =>
          .ok ⟨⟨.OBJECT, name, path, cid, depth, block.length, none⟩,
            some ⟨c, prop, sub_path2, rest⟩⟩
        | none =>
          cborResolveLoop cid block name path depth fuel (prop :: rest) v
            sub_path2
    | _ => .error .typeError

/-- Size of a cbor value, used to pick enough fuel for the loop. -/
def cborSize : CborValue → Nat
  | .cid _ => 1
  | .other _ => 1
  | .map es => 1 + cborSizeList es
where cborSizeList : List (String × CborValue) → Nat
  | [] => 0
  | (_, v) :: rest => 1 + cborSize v + cborSizeList rest

/-- resolvers.resolve_dag_cbor: fetch the block (keyed by `cid.encode()`),
decode it as dag-cbor and run the segment loop. -/
def resolve_dag_cbor (cid : CID) (name path : String)
    (to_resolve : List String) (depth : Nat) (store : Store) :
    Except PyErr ResolveResult :=
  match store (.str (cidEncode cid)) with
  | none => .error .keyError
  | some block =>
    match dagCborDecode block with
    | none => .error .decodeError
    | some obj =>
      cborResolveLoop cid block name path depth
        (cborSize obj + to_resolve.length + 1) to_resolve obj path

/-- resolvers.resolve_dag_pb.  Fetch the block (keyed by `cid.encode()`),
decode it, `assert node.data`, default the name and path, unmarshal the
UnixFS data, then compute the next hop:
* with segments left and a HAMTSHARD node, delegate to _find_shard_cid
  (the `findShard` parameter);
* with segments left and any other node the source sets `link_cid = None`,
  computes `link = next(filter(lambda x: x.name == name, node.links), None)`
  (comparing to the OUTER `name`, not to `to_resolve[0]`), then tests
  `if link_cid is not None` — which is never true — so `link_cid` remains
  None and the subsequent `assert link_cid` raises AssertionError;
* `assert link_cid` also fires when the shard lookup returns None.
Finally build the directory or file exportable with
`size = unix_fs.file_size()`. -/
def resolve_dag_pb (findShard : FindShard) (cid : CID) (name path : String)
    (to_resolve : List String) (depth : Nat) (store : Store) :
    Except PyErr ResolveResult :=
  match store (.str (cidEncode cid)) with
  | none => .error .keyError
  | some block =>
    match decodePBNode block with
    | none => .error .decodeError
    | some node =>
      if node.data = [] then .error .assertionError
      else
        let name := if name = "" then cidEncode cid else name
        let path := if path = "" then name else path
        match UnixFS.unmarshal node.data with
        | none => .error .decodeError
        | some unix_fs =>
          let nextRes : Except PyErr (Option NextResult) :=
            match to_resolve with
            | [] => .ok none
            | s0 :: restSegs =>
              let linkCid : Except PyErr (Option CID) :=
                if unix_fs.fs_type = FSType.HAMTSHARD then
                  findShard node s0 store
                else
                  let _link := node.links.find? (fun x => x.name = some name)
                  .ok none
              match linkCid with
              | .error e => .error e
              | .ok none => .error .assertionError
              | .ok (some c) =>
                .ok (some ⟨c, s0, path ++ "/" ++ s0, restSegs⟩)
          match nextRes with
          | .error e => .error e
          | .ok nr =>
            if unix_fs.is_dir then
              .ok ⟨⟨.DIRECTORY, name, path, cid, depth, unix_fs.file_size,
                some unix_fs⟩, nr⟩
            else
              .ok ⟨⟨.FILE, name, path, cid, depth, unix_fs.file_size,
                some unix_fs⟩, nr⟩

/-- The key space of the CONTENT_RESOLVERS dict.  The dict literal is built
with the integer codec codes (`multicodec.get('dag-pb').code` and friends),
but `resolve` indexes it with `cid.codec`, which in the external multiformats
library is the Multicodec OBJECT, not its integer code — content.py reads
`link.cid.codec.code` precisely because `.codec` alone is the object.  A
Multicodec object equals no integer, so the two key kinds never collide; the
model keeps them as distinct constructors. -/
inductive CRKey
  /-- an integer codec code, the kind of key the dict literal stores. -/
  | code (n : Nat)
  /-- the Multicodec object whose `.code` is the given integer, the kind of
  key `resolve` queries with. -/
  | mcodec (n : Nat)
deriving DecidableEq, Repr

/-- The value the dict stores under the dag-pb code: the function
resolve_dag_pb itself, whose def in the source has a spurious leading `cls`
parameter (seven parameters in total).  The dispatch call supplies the six
Resolver arguments, so Python raises TypeError at argument binding without
entering the body; through the six-argument Resolver interface the stored
entry therefore behaves as a constant TypeError. -/
def resolve_dag_pb_entry (_findShard : FindShard) : ResolverFn :=
  fun _ _ _ _ _ _ => .error .typeError

/-- resolvers.CONTENT_RESOLVERS: the static dict whose keys are exactly the
four integer codec codes 0x70, 0x55, 0x71, 0x00, mapped to resolve_dag_pb
(unusable through the six-argument interface, see resolve_dag_pb_entry),
resolve_raw, resolve_dag_cbor and resolve_identity.  A query with a
Multicodec object matches no integer key. -/
def CONTENT_RESOLVERS (findShard : FindShard) : CRKey → Option ResolverFn
  | .code n =>
    if n = codeDagPB then some (resolve_dag_pb_entry findShard)
    else if n = codeRaw then some resolve_raw
    else if n = codeDagCbor then some resolve_dag_cbor
    else if n = codeIdentity then some resolve_identity
    else none
  | .mcodec _ => none

/-- resolvers.resolve: `resolver = CONTENT_RESOLVERS[cid.codec]` — a plain
dict lookup keyed with the Multicodec object while the dict holds integer
keys, so the lookup raises the builtin KeyError for EVERY CID, recognized
codec code or not; no resolver is ever invoked through this dispatch. -/
def resolve (findShard : FindShard) (cid : CID) (name path : String)
    (to_resolve : List String) (depth : Nat) (store : Store) :
    Except PyErr ResolveResult :=
  match CONTENT_RESOLVERS findShard (.mcodec cid.codec) with
  | none => .error .keyError
  | some r => r cid name path to_resolve depth store

/-! exporter.py: path parsing and the walk loop. -/

/-- The three runtime types accepted by exporter._cid_and_rest. -/
inductive PathInput
  | bytes (b : Bytes)
  | cidv (c : CID)
  | str (s : String)

/-- exporter._cid_and_rest: bytes and CID inputs are taken verbatim with an
empty remainder; a string is first tried whole as a CID (empty remainder on
success).  Otherwise the source strips `/ipfs/`, calls _to_path_components
— which returns a lazy `filter` object — and immediately indexes it with
`output[0]`; a filter object is not subscriptable, so Python raises
TypeError on every string that is not itself a CID. -/
def cid_and_rest : PathInput → Except PyErr (CID × List String)
  | .bytes b =>
    match cidDecodeBytes b with
    | some c => .ok (c, [])
    | none => .error .decodeError
  | .cidv c => .ok (c, [])
  | .str s =>
    match cidDecodeStr s with
    | some c => .ok (c, [])
    | none => .error .typeError

/-- The loop of exporter._walk_path: repeatedly resolve, keep the last entry,
follow `next` until it is absent.  The depth passed to every resolve call is
the starting depth, as in the source. -/
def walkLoop (findShard : FindShard) (store : Store) (depth : Nat) :
    Nat → CID → String → String → List String → Except PyErr Exportable
  | 0, _, _, _, _ => .error .fuelOut
  | fuel + 1, cid, name, path, to_resolve =>
    match resolve findShard cid name path to_resolve depth store with
    | .error e => .error e
    | .ok r =>
      match r.next with
      | none => .ok r.entry
      | some nr => walkLoop findShard store depth fuel nr.cid nr.name nr.path
          nr.to_resolve

/-- exporter.exporter: parse the input, then walk the path; the name and the
entry path both start as `cid.encode()` and the starting depth is the number
of segments. -/
def exporter (findShard : FindShard) (store : Store) (fuel : Nat)
    (input : PathInput) : Except PyErr Exportable :=
  match cid_and_rest input with
  | .error e => .error e
  | .ok (c, to_resolve) =>
    walkLoop findShard store to_resolve.length fuel c (cidEncode c)
      (cidEncode c) to_resolve

/-! Concrete values used by the theorems and witnesses below. -/

/-- A find-shard parameter that never finds a link (the claims below never
reach the HAMT lookup branch). -/
def fsNone : FindShard := fun _ _ _ => .ok none

/-- The UnixFS value every unmarshal of a marshalled value produces: the
fields of a fresh pb2.Data() message. -/
def defaultUnixFS : UnixFS := ⟨.RAW, some [], [], some 0, 0, none, 0⟩

def wL1 : CID := ⟨0x55, 1⟩
def wL2 : CID := ⟨0x55, 2⟩
def wC : CID := ⟨0x70, 3⟩

/-- A dag-pb file node with one raw leaf, used inside the witness DAG. -/
def wChild : PBNode :=
  ⟨serializePBData ⟨2, [], [1], 0, 0, none, 0⟩, [⟨some "", some 1, wL2⟩]⟩

/-- The root of the witness DAG: a raw leaf, then a dag-pb child holding a
second raw leaf. -/
def wRoot : PBNode :=
  ⟨serializePBData ⟨2, [], [2, 1], 0, 0, none, 0⟩,
    [⟨some "", some 2, wL1⟩, ⟨some "", some 1, wC⟩]⟩

/-- A block store keyed by raw CID bytes, the way the repository's own tests
populate stores. -/
def wStore : Store := fun k =>
  if k = .bytes (cidBytes wL1) then some [10, 11]
  else if k = .bytes (cidBytes wL2) then some [12]
  else if k = .bytes (cidBytes wC) then some (encodePBNode wChild)
  else none

/-- A file node with UnixFS data [5, 6] and no links: the only shape of DAG
whose content stream reaches exhaustion in the source. -/
def wFree : PBNode := ⟨serializePBData ⟨2, [5, 6], [], 0, 0, none, 0⟩, []⟩

/-- The unmarshalled UnixFS of wFree (file_size 2). -/
def wFreeU : UnixFS := ⟨.FILE, some [5, 6], [], some 0, 0, none, 0⟩

/-- A UnixFS value whose declared file_size (11) disagrees with the two bytes
wFree actually streams, to exercise the total-length check at exhaustion. -/
def wBadU : UnixFS := ⟨.FILE, some [5, 6], [9], some 0, 0, none, 0⟩

/-- A file root with non-empty UnixFS data [7] over a single raw leaf [9]. -/
def cxRoot : PBNode :=
  ⟨serializePBData ⟨2, [7], [1], 0, 0, none, 0⟩,
    [⟨some "", some 1, ⟨0x55, 42⟩⟩]⟩

def cxStore : Store := fun k =>
  if k = .bytes (cidBytes (⟨0x55, 42⟩ : CID)) then some [9] else none

/-- The unmarshalled UnixFS of cxRoot. -/
def cxU : UnixFS := ⟨.FILE, some [7], [1], some 0, 0, none, 0⟩

/-- A file node declaring one block size but carrying no links. -/
def c3Bad : PBNode := ⟨serializePBData ⟨2, [], [1], 0, 0, none, 0⟩, []⟩

def c3cid : CID := ⟨0x70, 20⟩
def c3Link : PBLink := ⟨some "", some 0, c3cid⟩

def c3Store : Store := fun k =>
  if k = .bytes (cidBytes c3cid) then some (encodePBNode c3Bad) else none

def c4cid : CID := ⟨0x70, 4⟩

/-- A plain (non-HAMT) dag-pb directory node with a link named "a". -/
def c4node : PBNode :=
  ⟨serializePBData ⟨1, [], [], 0, 0, none, 0⟩, [⟨some "a", some 0, ⟨0x55, 1⟩⟩]⟩

def c4store : Store := fun k =>
  if k = .str (cidEncode c4cid) then some (encodePBNode c4node) else none

def c6cid : CID := ⟨0x71, 9⟩

/-- The modelled dag-cbor encoding of the object a-map-b-map-CID:
a map with key "a" whose value is a map with key "b" holding a CID link. -/
def c6block : Bytes := [2, 1, 1, 97, 2, 1, 1, 98, 1, 0x70, 9]

def c6store : Store := fun k =>
  if k = .str (cidEncode c6cid) then some c6block else none

/-- A concrete resolver callback standing for the `resolver` parameter of the
HAMT enumeration (never reached, since the loop crashes first). -/
def c7res : ResolverFn := fun cid n p _ d _ =>
  .ok ⟨⟨.FILE, n, p, cid, d, 0, none⟩, none⟩

def c7cid1 : CID := ⟨0x70, 11⟩
def c7cid2 : CID := ⟨0x70, 12⟩

/-- A HAMT shard node (fanout 16, prefix length 1) with one terminal entry
link ("0X", longer than the prefix) and one prefix-only sub-shard link
("1", exactly the prefix length). -/
def c7node : PBNode :=
  ⟨serializePBData ⟨5, [], [], 0, 16, none, 0⟩,
    [⟨some "0X", some 0, c7cid1⟩, ⟨some "1", some 0, c7cid2⟩]⟩

def c7store : Store := fun _ => none

/-- The unmarshalled UnixFS of the shard node. -/
def c7u : UnixFS := ⟨.HAMTSHARD, some [], [], some 0, 16, none, 0⟩

def c9cid : CID := ⟨0x55, 7⟩

/-- A store populated the way the repository's own tests populate it: the
block is stored under the raw CID bytes key only. -/
def c9store : Store := fun k =>
  if k = .bytes (cidBytes c9cid) then some [1, 2] else none

/-- A UnixFS value with non-default fields. -/
def c10u : UnixFS := ⟨.FILE, none, [5], none, 0, none, 0⟩

/-- The DAG walker never raises the total-length ContentExtractionException;
that check lives only in file_content, at exhaustion. -/
theorem walk_links_ne_size (store : Store) :
    ∀ fuel curr stack,
      (walk_links store fuel curr stack).2 ≠ some PyErr.sizeMismatch := by
  intro fuel
  induction fuel with
  | zero => intro curr stack; simp [walk_links]
  | succ fuel ih =>
    intro curr stack
    match curr, stack with
    | [], [] => simp [walk_links]
    | [], ls :: st => rw [walk_links]; exact ih ls st
    | _ :: _, st => simp [walk_links]

/-- The whole-DAG walk never raises the total-length check either. -/
theorem walk_dag_ne_size (store : Store) (fuel : Nat) (node : PBNode) :
    (walk_dag store fuel node).2 ≠ some PyErr.sizeMismatch := by
  rw [walk_dag]
  cases hum : UnixFS.unmarshal node.data with
  | none => simp
  | some file =>
    simp only
    by_cases hlen : file.block_sizes.length ≠ node.links.length
    · rw [if_pos hlen]; simp
    · rw [if_neg hlen]
      simpa using walk_links_ne_size store fuel node.links []

/-- Counting a character over its replication followed by a different
character returns the replication count and the remainder. -/
theorem countLeading_replicate_ne (c x : Char) (n : Nat) (r : List Char)
    (h : x ≠ c) : countLeading c (List.replicate n c ++ x :: r) = (n, x :: r) := by
  induction n with
  | zero => simp [countLeading, h]
  | succ n ih => simp [List.replicate_succ, countLeading, ih]

/-- Counting a character over exactly its replication consumes everything. -/
theorem countLeading_replicate (c : Char) (n : Nat) :
    countLeading c (List.replicate n c) = (n, []) := by
  induction n with
  | zero => simp [countLeading]
  | succ n ih => simp [List.replicate_succ, countLeading, ih]

/-- The modelled CID string decoder inverts the modelled CID encoder. -/
theorem cidDecodeStr_encode (c : CID) : cidDecodeStr (cidEncode c) = some c := by
  have h1 : countLeading 'a' (List.replicate c.codec 'a' ++
      '#' :: List.replicate c.digest 'b') =
      (c.codec, '#' :: List.replicate c.digest 'b') :=
    countLeading_replicate_ne 'a' '#' c.codec _ (by decide)
  simp [cidDecodeStr, cidEncode, h1, countLeading_replicate]

/-! Claim theorems. -/

/-- Claim C1 (the code at the failing input): the file DAG walker crashes at
the first link instead of streaming leaves.  For the witness DAG wRoot (a
raw leaf, then a dag-pb child with a second raw leaf) the stream yields only
the root's UnixFS data and then raises AttributeError at `bytes(link.cid)`
(content.py:25): PBLink's CID field is named `hash`, and the later
`PBNode.decode` (content.py:27) does not exist either.  The same happens
through the full FILE content stream of cxRoot, whose data [7] is emitted
while its raw leaf [9] is never yielded.  Only a link-free root such as
wFree streams to exhaustion, yielding exactly its own UnixFS data — so the
claimed depth-first leaf streaming, stack descent and leaf-concatenation
law never happen for any DAG that actually has leaves. -/
theorem c1_walker_attribute_error :
    walk_dag wStore 9 wRoot = ([[]], some PyErr.attributeError) ∧
    file_content cxStore 5 cxRoot cxU = ([[7]], some PyErr.attributeError) ∧
    walk_dag (fun _ => none) 2 wFree = ([[5, 6]], none) := by decide

/-- Claim C2: for a FILE content stream, (1) exhaustion without error means
the sum of the chunk lengths equals `unix_fs.file_size()`; (2) a sizeMismatch
ContentExtractionException happens only when the underlying DAG walk already
finished error-free with all its chunks emitted — so only at exhaustion,
never on a partially consumed stream — and the total then differs from
file_size; (3) conversely, an error-free walk whose total differs raises
exactly that error at exhaustion; and (4) a dag-pb resolve with no remaining
segments builds the exportable with `size = unix_fs.file_size()` and carries
that same UnixFS value.  Note the reachability caveat: because the walker
raises AttributeError at the first link, the source reaches error-free
exhaustion only for a root without links, and these conditionals are proven
over that faithful walker. -/
theorem c2_size_law :
    (∀ (store : Store) (fuel : Nat) (node : PBNode) (u : UnixFS)
      (out : List Bytes), u.fs_type = FSType.FILE →
      file_content store fuel node u = (out, none) →
      (out.map List.length).sum = u.file_size) ∧
    (∀ (store : Store) (fuel : Nat) (node : PBNode) (u : UnixFS)
      (out : List Bytes), u.fs_type = FSType.FILE →
      file_content store fuel node u = (out, some PyErr.sizeMismatch) →
      walk_dag store fuel node = (out, none) ∧
        (out.map List.length).sum ≠ u.file_size) ∧
    (∀ (store : Store) (fuel : Nat) (node : PBNode) (u : UnixFS)
      (out : List Bytes), u.fs_type = FSType.FILE →
      walk_dag store fuel node = (out, none) →
      (out.map List.length).sum ≠ u.file_size →
      file_content store fuel node u = (out, some PyErr.sizeMismatch)) ∧
    (∀ (findShard : FindShard) (cid : CID) (name path : String) (depth : Nat)
      (store : Store) (r : ResolveResult),
      resolve_dag_pb findShard cid name path [] depth store = .ok r →
      ∃ u, r.entry.unix_fs = some u ∧ r.entry.size = u.file_size) := by
  refine ⟨?_, ?_, ?_, ?_⟩
  · intro store fuel node u out hu h
    rw [file_content, if_neg (by simp [hu])] at h
    cases hw : walk_dag store fuel node with
    | mk bs0 e0 =>
      rw [hw] at h
      cases e0 with
      | some e => simp at h
      | none =>
        simp only at h
        by_cases hsum : (bs0.map List.length).sum = u.file_size
        · rw [if_neg (by simp [hsum])] at h
          simp only [Prod.mk.injEq] at h
          rw [← h.1]
          exact hsum
        · rw [if_pos (by simp [hsum])] at h
          simp at h
  · intro store fuel node u out hu h
    rw [file_content, if_neg (by simp [hu])] at h
    cases hw : walk_dag store fuel node with
    | mk bs0 e0 =>
      rw [hw] at h
      cases e0 with
      | some e =>
        simp only [Prod.mk.injEq] at h
        have hbad : (walk_dag store fuel node).2 = some PyErr.sizeMismatch := by
          rw [hw]
          simpa using h.2
        exact absurd hbad (walk_dag_ne_size store fuel node)
      | none =>
        simp only at h
        by_cases hsum : (bs0.map List.length).sum = u.file_size
        · rw [if_neg (by simp [hsum])] at h
          simp at h
        · rw [if_pos (by simp [hsum])] at h
          simp only [Prod.mk.injEq] at h
          obtain ⟨h1, _⟩ := h
          constructor
          · rw [h1]
          · rw [← h1]
            exact hsum
  · intro store fuel node u out hu hw hsum
    rw [file_content, if_neg (by simp [hu]), hw]
    simp only
    rw [if_pos (by simp [hsum])]
  · intro findShard cid name path depth store r h
    rw [resolve_dag_pb] at h
    cases hst : store (.str (cidEncode cid)) with
    | none => rw [hst] at h; simp at h
    | some block =>
      rw [hst] at h
      simp only at h
      cases hdec : decodePBNode block with
      | none => rw [hdec] at h; simp at h
      | some node =>
        rw [hdec] at h
        simp only at h
        by_cases hdata : node.data = []
        · rw [if_pos hdata] at h; simp at h
        · rw [if_neg hdata] at h
          cases hum : UnixFS.unmarshal node.data with
          | none => rw [hum] at h; simp at h
          | some u0 =>
            rw [hum] at h
            simp only at h
            by_cases hdir : u0.is_dir
            · rw [if_pos hdir] at h
              cases h
              exact ⟨u0, rfl, rfl⟩
            · rw [if_neg hdir] at h
              cases h
              exact ⟨u0, rfl, rfl⟩

/-- Witness for c2_size_law: the link-free node wFree streams to exhaustion
with total 2 = file_size (part 1); the same stream driven against the
mismatched size declaration wBadU ends in sizeMismatch with all chunks
already emitted (part 3); and the concrete dag-pb resolve of the c4
directory node yields an entry whose size is its unmarshalled file_size
(part 4). -/
theorem c2_size_law_witness :
    (([[5, 6]] : List Bytes).map List.length).sum = wFreeU.file_size ∧
    file_content (fun _ => none) 2 wFree wBadU =
      ([[5, 6]], some PyErr.sizeMismatch) ∧
    (∃ u, (⟨⟨.DIRECTORY, "n", "pp", c4cid, 0, 0,
        some ⟨.DIRECTORY, some [], [], some 0, 0, none, 0⟩⟩, none⟩ :
        ResolveResult).entry.unix_fs = some u ∧
      (⟨⟨.DIRECTORY, "n", "pp", c4cid, 0, 0,
        some ⟨.DIRECTORY, some [], [], some 0, 0, none, 0⟩⟩, none⟩ :
        ResolveResult).entry.size = u.file_size) :=
  ⟨c2_size_law.1 (fun _ => none) 2 wFree wFreeU [[5, 6]] (by decide)
      (by decide),
   c2_size_law.2.2.1 (fun _ => none) 2 wFree wBadU [[5, 6]] (by decide)
      (by decide) (by decide),
   c2_size_law.2.2.2 fsNone c4cid "n" "pp" 0 c4store
      ⟨⟨.DIRECTORY, "n", "pp", c4cid, 0, 0,
        some ⟨.DIRECTORY, some [], [], some 0, 0, none, 0⟩⟩, none⟩ (by decide)⟩

/-- Claim C3 (the code at the failing input): the root half of the block-size
/ link-count law behaves as claimed — c3Bad declares one block size over zero
links and the stream raises the inconsistent-block-sizes
ContentExtractionException before any chunk — but the child half is
unreachable: walking towards the dag-pb child link c3Link (whose target has
the same defect, stored and decodable in c3Store) raises AttributeError at
`link.cid` (content.py:25) before the child block is fetched, decoded or
checked, so the claimed ContentExtractionError at the moment of descent
never occurs. -/
theorem c3_blocksize_root_reachable_child_not :
    walk_dag (fun _ => none) 3 c3Bad =
      ([], some PyErr.inconsistentBlockSizes) ∧
    walk_links c3Store 4 [c3Link] [] =
      ([], some PyErr.attributeError) := by decide

/-- Claim C4 (the code at the failing input): resolving the concrete non-HAMT
dag-pb node c4node — which HAS a link named "a" — with remaining segments
["a"] raises AssertionError instead of returning the next hop: the source
leaves `link_cid = None` (it guards the assignment with `if link_cid is not
None` instead of `if link is not None`, and its filter compares `x.name`
against the outer `name` rather than `to_resolve[0]`), so `assert link_cid`
fails. -/
theorem c4_nonhamt_assertion :
    resolve_dag_pb fsNone c4cid "a" "pp" ["a"] 0 c4store =
      .error PyErr.assertionError ∧
    (c4node.links.find? (fun x => x.name = some "a")).isSome := by decide

/-- Claim C5 (counterexample to the claim as stated): for a CID whose codec
code 0x99 is outside the table, `resolve` raises the builtin KeyError of the
dict lookup `CONTENT_RESOLVERS[cid.codec]`, which is not the dedicated
UnsupportedCodec resolve error the claim describes; the miss is doubly
assured because the lookup key is the Multicodec object, which matches no
integer key. -/
theorem c5_unknown_codec_counterexample :
    resolve fsNone ⟨0x99, 5⟩ "n" "p" [] 0 (fun _ => none) =
      .error PyErr.keyError ∧
    (Except.error PyErr.keyError : Except PyErr ResolveResult) ≠
      .error PyErr.unsupportedCodecResolve ∧
    CONTENT_RESOLVERS fsNone (.code 0x99) = none ∧
    CONTENT_RESOLVERS fsNone (.mcodec 0x99) = none := by
  refine ⟨rfl, by decide, rfl, rfl⟩

/-- Claim C5 (amended): the static dict holds exactly the four integer codec
codes dag-pb (0x70), raw (0x55), dag-cbor (0x71) and identity (0x00), mapped
to the four resolver functions — the dag-pb entry being unusable through the
six-argument Resolver interface because of its spurious leading `cls`
parameter (TypeError at argument binding) — but `resolve` indexes the dict
with the CID's Multicodec object rather than its integer code, so EVERY
resolve call, recognized codec code or not, raises the builtin KeyError; no
resolver is ever invoked through the dispatch and no dedicated
UnsupportedCodec error exists. -/
theorem c5_dispatch_amended :
    (∀ findShard : FindShard,
      CONTENT_RESOLVERS findShard (.code codeDagPB) =
        some (resolve_dag_pb_entry findShard) ∧
      CONTENT_RESOLVERS findShard (.code codeRaw) = some resolve_raw ∧
      CONTENT_RESOLVERS findShard (.code codeDagCbor) =
        some resolve_dag_cbor ∧
      CONTENT_RESOLVERS findShard (.code codeIdentity) =
        some resolve_identity) ∧
    (∀ (findShard : FindShard) (n : Nat),
      n ≠ codeDagPB → n ≠ codeRaw → n ≠ codeDagCbor → n ≠ codeIdentity →
      CONTENT_RESOLVERS findShard (.code n) = none) ∧
    (∀ (findShard : FindShard) (cid : CID) (name path : String)
      (to_resolve : List String) (depth : Nat) (store : Store),
      resolve findShard cid name path to_resolve depth store =
        .error PyErr.keyError) ∧
    (∀ (findShard : FindShard) (cid : CID) (name path : String)
      (to_resolve : List String) (depth : Nat) (store : Store),
      resolve_dag_pb_entry findShard cid name path to_resolve depth store =
        .error PyErr.typeError) := by
  refine ⟨fun findShard => ⟨rfl, rfl, rfl, rfl⟩, ?_, ?_, ?_⟩
  · intro findShard n h1 h2 h3 h4
    simp [CONTENT_RESOLVERS, h1, h2, h3, h4]
  · intro findShard cid name path to_resolve depth store
    rfl
  · intro findShard cid name path to_resolve depth store
    rfl

/-- Witness for c5_dispatch_amended: the code 0x99 is not a key of the table,
and a raw-codec (0x55) CID still ends in KeyError because the query key is
the Multicodec object. -/
theorem c5_dispatch_amended_witness :
    CONTENT_RESOLVERS fsNone (.code 0x99) = none ∧
    resolve fsNone ⟨0x55, 3⟩ "n" "p" [] 0 (fun _ => none) =
      .error PyErr.keyError :=
  ⟨c5_dispatch_amended.2.1 fsNone 0x99 (by decide) (by decide) (by decide)
      (by decide),
   c5_dispatch_amended.2.2.1 fsNone ⟨0x55, 3⟩ "n" "p" [] 0 (fun _ => none)⟩

/-- Claim C6 (the code at the failing input): resolving the dag-cbor object
with "a" mapped to an object whose "b" holds a CID, against the segments
["a", "b"], raises the path-not-found IPFSUnixFSResolveException instead of
returning the OBJECT entry with a next hop for the CID: the loop in the
source never advances `to_resolve` after descending into `sub_obj[prop]`, so
the second iteration looks for "a" again inside the inner object. -/
theorem c6_segment_never_advances :
    dagCborDecode c6block =
      some (.map [("a", .map [("b", .cid ⟨0x70, 9⟩)])]) ∧
    resolve_dag_cbor c6cid "n" "p" ["a", "b"] 0 c6store =
      .error PyErr.resolveException := by
  exact ⟨rfl, by decide⟩

/-- Claim C7 (the code at the failing input): enumerating the concrete HAMT
shard c7node (fanout 16, prefix length hexLen 15 = 1) yields NO entry at
all: the loop raises AttributeError at `link.cid` on its first link
(content.py:70), before the terminal entry "0X" can be resolved and before
the prefix-only link "1" can reach the sub-shard recursion — whose own
missing-`resolver` argument (content.py:75) would raise TypeError even if
`link.cid` existed.  The claimed per-link dispatch and pre-order sub-shard
recursion never happen. -/
theorem c7_enumeration_attribute_error :
    list_hamt_directory c7res c7store c7node "d" 0 =
      ([], some PyErr.attributeError) ∧
    hamt_sharded_directory_content c7res c7store c7node c7u "d" 0 =
      ([], some PyErr.attributeError) ∧
    hexLen (16 - 1) = 1 := by decide

/-- Claim C8: for every CID, every block store (and any shard-lookup
behaviour and fuel), feeding the exporter the string encoding of the CID
gives the same outcome as feeding it the CID itself: the string decodes back
to an equal CID with an empty remainder — as do the raw CID bytes — so both
walks start from the same (cid, segments) pair and the exported results
coincide. -/
theorem c8_path_idempotence :
    ∀ (findShard : FindShard) (store : Store) (fuel : Nat) (c : CID),
      cid_and_rest (.str (cidEncode c)) = .ok (c, []) ∧
      cid_and_rest (.cidv c) = .ok (c, []) ∧
      cid_and_rest (.bytes (cidBytes c)) = .ok (c, []) ∧
      exporter findShard store fuel (.str (cidEncode c)) =
        exporter findShard store fuel (.cidv c) := by
  intro findShard store fuel c
  have hdec : cidDecodeStr (cidEncode c) = some c := cidDecodeStr_encode c
  have hb : cidDecodeBytes (cidBytes c) = some c := by
    cases c
    rfl
  refine ⟨?_, rfl, ?_, ?_⟩
  · rw [cid_and_rest, hdec]
  · rw [cid_and_rest, hb]
  · rw [exporter, exporter, cid_and_rest, cid_and_rest, hdec]

/-- Claim C9 (the code at the failing input): the subsystems do not share one
canonical block key.  c9store holds its block only under the raw CID bytes
key, exactly how the repository's own tests populate stores; the resolver
fetch `block_from_encoded_cid[cid.encode()]` (resolvers.py, here the raw
resolver) then raises KeyError, because it queries the multibase STRING key,
which never equals the bytes key.  content.py's own fetch expressions
(`bytes(link.cid)`) would use the bytes key, but they sit behind the
`link.cid` AttributeError and are unreachable, so no subsystem agrees with
the tests' canonical-bytes keying. -/
theorem c9_store_key_mismatch :
    c9store (.bytes (cidBytes c9cid)) = some [1, 2] ∧
    resolve_raw c9cid "n" "p" [] 0 c9store = .error PyErr.keyError ∧
    BSKey.bytes (cidBytes c9cid) ≠ BSKey.str (cidEncode c9cid) := by decide

/-- Claim C10: UnixFS.marshal serializes a freshly constructed empty protobuf
message and ignores every field of the value, so (1) all UnixFS values
marshal to the same byte string, (2) unmarshalling a marshalled value always
yields the default UnixFS, and (3) for a value different from that default,
unmarshal of marshal does not reconstruct it. -/
theorem c10_marshal_ignores_fields :
    (∀ u v : UnixFS, u.marshal = v.marshal) ∧
    (∀ u : UnixFS, UnixFS.unmarshal u.marshal = some defaultUnixFS) ∧
    (∀ u : UnixFS, u ≠ defaultUnixFS →
      UnixFS.unmarshal u.marshal ≠ some u) := by
  refine ⟨fun u v => rfl, fun u => rfl, fun u hne h => ?_⟩
  have hd : UnixFS.unmarshal u.marshal = some defaultUnixFS := rfl
  rw [hd] at h
  exact hne (Option.some.inj h).symm

/-- Witness for c10_marshal_ignores_fields: the concrete FILE value c10u with
one block size is not reconstructed by unmarshal of marshal. -/
theorem c10_marshal_ignores_fields_witness :
    UnixFS.unmarshal (UnixFS.marshal c10u) ≠ some c10u :=
  c10_marshal_ignores_fields.2.2 c10u (by decide)
